import Mathlib

/-!
Shallow embedding of the webhook-payload interpretation and checkout-script
synthesis subsystem of the scm-gitlab adapter (src/index.js), together with
theorems settling the frozen claims about it.

JavaScript semantics notes used throughout:
* `Hoek.reach(obj, 'a.b')` returns `undefined` when a step is missing; this is
  modelled with `Option` and `Option.bind`.
* `x || y` and `cond ? a : b` use JS truthiness; for strings the only falsy
  values are `undefined`/`''`, modelled by `jsTruthy` below.
* Template-literal interpolation of a possibly-`undefined` value prints the
  text `undefined`; modelled by `jsShowStr` / `jsShowNat`.
-/

/-- JS truthiness of a possibly-absent string: `undefined` and `""` are falsy. -/
def jsTruthy (o : Option String) : Bool :=
  !(o.getD "" == "")

/-- JS `commitBranch || pipelineBranch`: take the left string when truthy. -/
def jsOr (a : Option String) (b : String) : String :=
  if jsTruthy a then a.getD "" else b

/-- JS template-literal rendering of a possibly-`undefined` string. -/
def jsShowStr : Option String → String
  | some s => s
  | none => "undefined"

/-- JS template-literal rendering of a possibly-`undefined` number. -/
def jsShowNat : Option Nat → String
  | some n => toString n
  | none => "undefined"

/-- Errors surfaced by the adapter: `throwError(reason, code)` builds an
`Error` with a `statusCode` (`scmError`); property access on `undefined`
raises a `TypeError`. -/
inductive JsError where
  | scmError (message : String) (statusCode : Nat)
  | typeError (message : String)
deriving DecidableEq, Repr

/-- `user` object of a merge-request payload (`user.username`). -/
structure GitlabUser where
  username : Option String
deriving DecidableEq, Repr

/-- `project` object of a payload (`project.git_ssh_url`). -/
structure GitlabProject where
  git_ssh_url : Option String
deriving DecidableEq, Repr

/-- `object_attributes.last_commit` of a merge-request payload. -/
structure LastCommit where
  id : Option String
deriving DecidableEq, Repr

/-- `object_attributes` of a merge-request payload. -/
structure MergeRequestAttributes where
  state : Option String
  iid : Option Nat
  title : Option String
  target_project_id : Option Nat
  source_project_id : Option Nat
  target_branch : Option String
  last_commit : Option LastCommit
deriving DecidableEq, Repr

/-- `commit.author` of a push payload; the source reads `commit.author.name`
without a guard. -/
structure CommitAuthor where
  name : String
deriving DecidableEq, Repr

/-- One entry of a push payload's `commits` array. -/
structure PushCommit where
  author : CommitAuthor
  message : Option String
  added : Option (List String)
  modified : Option (List String)
  removed : Option (List String)
deriving DecidableEq, Repr

/-- The fields of a GitLab webhook payload read by `_parseHook`. -/
structure WebhookPayload where
  object_kind : Option String
  project : Option GitlabProject
  object_attributes : Option MergeRequestAttributes
  user : Option GitlabUser
  user_username : Option String
  ref : Option String
  checkout_sha : Option String
  commits : Option (List PushCommit)
deriving DecidableEq, Repr

/-- The adapter instance configuration fields used by the embedded methods:
`gitlabHost`, `username`, `email`, `readOnly.enabled`, `readOnly.cloneType`. -/
structure ReadOnlyConfig where
  enabled : Option Bool
  cloneType : Option String
deriving DecidableEq, Repr

structure ScmConfig where
  gitlabHost : Option String
  username : String
  email : String
  readOnly : Option ReadOnlyConfig
deriving DecidableEq, Repr

/-- The normalized webhook event returned by `_parseHook`.  Fields that only
one event family sets are `Option`-valued and `none` for the other family. -/
structure WebhookEvent where
  action : String
  branch : Option String
  checkoutUrl : Option String
  sha : Option String
  type : String
  username : Option String
  hookId : String
  scmContext : String
  ref : String
  prNum : Option Nat
  prTitle : Option String
  prRef : Option String
  prSource : Option String
  prMerged : Option Bool
  commitAuthors : Option (List String)
  lastCommitMessage : Option String
  addedFiles : Option (List String)
  modifiedFiles : Option (List String)
  removedFiles : Option (List String)
deriving DecidableEq, Repr

/-- Request headers as a list of key/value pairs; `_parseHook` only inspects
the keys (`Object.keys(payloadHeaders)`). -/
def headerKeys (headers : List (String × String)) : List String :=
  headers.map Prod.fst

/-- `_getScmContexts`: `['gitlab:' + gitlabHost]` when the configured host is
truthy, else `['gitlab:gitlab.com']`. -/
def getScmContexts (config : ScmConfig) : List String :=
  if jsTruthy config.gitlabHost then ["gitlab:" ++ config.gitlabHost.getD ""]
  else ["gitlab:gitlab.com"]

/-- `Hoek.reach(webhookPayload, 'commits.-1.message', { default: '' }) || ''`:
the message of the last commit, defaulting to the empty string. -/
def lastCommitMessageOf (commits : Option (List PushCommit)) : String :=
  match commits with
  | none => ""
  | some cs =>
    match cs.getLast? with
    | none => ""
    | some c => c.message.getD ""

/-- `Hoek.reach(webhookPayload, ['commits', 0, f], { default: [] })`: a
changed-file list of the first commit, defaulting to the empty list. -/
def firstCommitFiles (commits : Option (List PushCommit))
    (f : PushCommit → Option (List String)) : List String :=
  match commits with
  | some (c :: _) => (f c).getD []
  | _ => []

/-- `commits.forEach(commit => commitAuthors.push(commit.author.name))`,
guarded by `Array.isArray(commits)`. -/
def commitAuthorsOf (commits : Option (List PushCommit)) : List String :=
  match commits with
  | some cs => cs.map fun c => c.author.name
  | none => []

/-- Shallow embedding of `_parseHook(payloadHeaders, webhookPayload)`.
Success is `Except.ok`; `return null` is `Except.ok none`; `throwError` and a
JS `TypeError` are `Except.error`. -/
def parseHook (config : ScmConfig) (payloadHeaders : List (String × String))
    (webhookPayload : WebhookPayload) : Except JsError (Option WebhookEvent) :=
  let scmContexts := getScmContexts config
  let scmContext := scmContexts.headD ""
  let hookId := ""
  let checkoutUrl := webhookPayload.project.bind GitlabProject.git_ssh_url
  let commits := webhookPayload.commits
  let type := webhookPayload.object_kind
  if "x-gitlab-event" ∈ headerKeys payloadHeaders then
    if type = some "merge_request" then
      let mergeRequest := webhookPayload.object_attributes
      let action := mergeRequest.bind MergeRequestAttributes.state
      let prNum := mergeRequest.bind MergeRequestAttributes.iid
      let prTitle := mergeRequest.bind MergeRequestAttributes.title
      let baseSource := mergeRequest.bind MergeRequestAttributes.target_project_id
      let headSource := mergeRequest.bind MergeRequestAttributes.source_project_id
      let prSource := if baseSource = headSource then "branch" else "fork"
      let prMerged := action = some "merged"
      let ref := "pull/" ++ jsShowNat prNum ++ "/merge"
      let actionable : Bool :=
        match action with
        | some a => ["opened", "closed", "merged"].contains a
        | none => false
      if actionable then
        let action' := if action = some "merged" then some "closed" else action
        .ok (some {
          action := jsShowStr action'
          branch := mergeRequest.bind MergeRequestAttributes.target_branch
          checkoutUrl := checkoutUrl
          sha := mergeRequest.bind fun mr => mr.last_commit.bind LastCommit.id
          type := "pr"
          username := webhookPayload.user.bind GitlabUser.username
          hookId := hookId
          scmContext := scmContext
          ref := ref
          prNum := prNum
          prTitle := prTitle
          prRef := some ("merge_requests/" ++ jsShowNat prNum)
          prSource := some prSource
          prMerged := some (decide prMerged)
          commitAuthors := none
          lastCommitMessage := none
          addedFiles := none
          modifiedFiles := none
          removedFiles := none })
      else
        .ok none
    else if type = some "push" then
      match webhookPayload.ref with
      | none => .error (.typeError "Cannot read properties of undefined")
      | some r =>
        .ok (some {
          action := "push"
          branch := some ((r.splitOn "/").getLastD "")
          checkoutUrl := checkoutUrl
          sha := webhookPayload.checkout_sha
          type := "repo"
          username := webhookPayload.user_username
          hookId := hookId
          scmContext := scmContext
          ref := r
          prNum := none
          prTitle := none
          prRef := none
          prSource := none
          prMerged := none
          commitAuthors := some (commitAuthorsOf commits)
          lastCommitMessage := some (lastCommitMessageOf commits)
          addedFiles := some (firstCommitFiles commits PushCommit.added)
          modifiedFiles := some (firstCommitFiles commits PushCommit.modified)
          removedFiles := some (firstCommitFiles commits PushCommit.removed) })
    else
      .ok none
  else
    .error (.scmError "Missing x-gitlab-event header" 400)

/-- Shallow embedding of `_canHandleWebhook(headers, payload)`: awaits
`_parseHook` inside `try`, returning `true` on any resolution and `false` on
any rejection. -/
def canHandleWebhook (config : ScmConfig) (headers : List (String × String))
    (payload : WebhookPayload) : Bool :=
  match parseHook config headers payload with
  | .ok _ => true
  | .error _ => false

/-- `s.trimStart()` on the character list: drop leading whitespace. -/
def trimStartList : List Char → List Char
  | [] => []
  | c :: cs => if c.isWhitespace then trimStartList cs else c :: cs

/-- JS `String.prototype.trimStart`. -/
def trimStart (s : String) : String :=
  ⟨trimStartList s.data⟩

/-- `trimIndentJoin(commands)`: trim each command's leading whitespace and
join with single spaces. -/
def trimIndentJoin (commands : List String) : String :=
  String.intercalate " " (commands.map trimStart)

/-- JS `String.prototype.replace` with a string pattern: replace only the
first occurrence (char-list worker). -/
def replaceFirstList (pat rep : List Char) : List Char → List Char
  | [] => if pat.isPrefixOf ([] : List Char) then rep else []
  | c :: cs =>
    if pat.isPrefixOf (c :: cs) then rep ++ (c :: cs).drop pat.length
    else c :: replaceFirstList pat rep cs

/-- JS `s.replace(pat, rep)` for string patterns (first occurrence only). -/
def jsReplaceFirst (s pat rep : String) : String :=
  ⟨replaceFirstList pat.data rep.data s.data⟩

/-- `config.parentConfig`: coordinates of the parent ("config") pipeline's
repository. -/
structure ParentConfig where
  host : String
  org : String
  repo : String
  branch : String
  sha : String
deriving DecidableEq, Repr

/-- The argument of `_getCheckoutCommand` (the checkout plan). -/
structure CheckoutConfig where
  branch : String
  commitBranch : Option String
  host : String
  org : String
  repo : String
  sha : String
  rootDir : Option String
  prRef : Option String
  prSource : Option String
  prBranchName : Option String
  parentConfig : Option ParentConfig
deriving DecidableEq, Repr

/-- The value `_getCheckoutCommand` resolves with. -/
structure CheckoutResult where
  name : String
  command : String
deriving DecidableEq, Repr

/-- `command.join(' && ')`. -/
def joinCommands : List String → String
  | [] => ""
  | [c] => c
  | c :: c2 :: cs => c ++ " && " ++ joinCommands (c2 :: cs)

/-- The sparse-checkout fragment, pushed after each clone. -/
def sparseCheckoutFragment : String :=
  trimIndentJoin [
    "if [ ! -z \"$GIT_SPARSE_CHECKOUT_PATH\" ];then",
    "    $SD_GIT_WRAPPER \"git sparse-checkout set $GIT_SPARSE_CHECKOUT_PATH\" && $SD_GIT_WRAPPER \"git checkout\";",
    "fi"]

/-- The submodule init/update fragment, always the last step before the
optional root-directory `cd`. -/
def submoduleFragment : String :=
  trimIndentJoin [
    "if [ ! -z $GIT_RECURSIVE_CLONE ] && [ $GIT_RECURSIVE_CLONE = false ]; then",
    "    $SD_GIT_WRAPPER \"git submodule init\";",
    "else",
    "    $SD_GIT_WRAPPER \"git submodule update --init --recursive\";",
    "fi"]

/-- The shallow-clone-negotiation fragment; `tail` is the
`--branch <branch> <url> <destination>` part, which differs between the
parent-config clone and the main clone. -/
def shallowCloneFragment (tail : String) : String :=
  trimIndentJoin [
    "if [ ! -z $GIT_SHALLOW_CLONE ] && [ $GIT_SHALLOW_CLONE = false ]; then",
    "    $SD_GIT_WRAPPER \"git clone $GIT_SPARSE_OPTION $GIT_RECURSIVE_OPTION --quiet --progress --branch " ++ tail ++ "\";",
    "else",
    "    if [ ! -z \"$GIT_SHALLOW_CLONE_SINCE\" ]; then",
    "        export GIT_SHALLOW_CLONE_DEPTH_OPTION=\"--shallow-since='$GIT_SHALLOW_CLONE_SINCE'\";",
    "    else",
    "        if [ -z $GIT_SHALLOW_CLONE_DEPTH ]; then",
    "            export GIT_SHALLOW_CLONE_DEPTH=50;",
    "        fi;",
    "        export GIT_SHALLOW_CLONE_DEPTH_OPTION=\"--depth=$GIT_SHALLOW_CLONE_DEPTH\";",
    "    fi;",
    "    export GIT_SHALLOW_CLONE_BRANCH=\"--no-single-branch\";",
    "    if [ \"$GIT_SHALLOW_CLONE_SINGLE_BRANCH\" = true ]; then",
    "        export GIT_SHALLOW_CLONE_BRANCH=\"\";",
    "    fi;",
    "    $SD_GIT_WRAPPER \"git clone $GIT_SHALLOW_CLONE_DEPTH_OPTION $GIT_SHALLOW_CLONE_BRANCH $GIT_SPARSE_OPTION $GIT_RECURSIVE_OPTION --quiet --progress --branch " ++ tail ++ "\";",
    "fi"]

/-- The `SCM_URL` export fragment(s): read-only ssh, read-only https, or the
default clone-type negotiation. -/
def scmUrlFragments (config : ScmConfig) (checkoutUrl sshCheckoutUrl : String) :
    List String :=
  if (config.readOnly.bind ReadOnlyConfig.enabled).getD false then
    if config.readOnly.bind ReadOnlyConfig.cloneType = some "ssh" then
      ["export SCM_URL=" ++ sshCheckoutUrl]
    else
      [trimIndentJoin [
        "if [ ! -z $SCM_USERNAME ] && [ ! -z $SCM_ACCESS_TOKEN ]; then",
        "    export SCM_URL=https://$SCM_USERNAME:$SCM_ACCESS_TOKEN@" ++ checkoutUrl ++ ";",
        "else",
        "    export SCM_URL=https://" ++ checkoutUrl ++ ";",
        "fi"]]
  else
    [trimIndentJoin [
      "if [ ! -z $SCM_CLONE_TYPE ] && [ $SCM_CLONE_TYPE = ssh ]; then",
      "    export SCM_URL=" ++ sshCheckoutUrl ++ ";",
      "elif [ ! -z $SCM_USERNAME ] && [ ! -z $SCM_ACCESS_TOKEN ];",
      "    then export SCM_URL=https://$SCM_USERNAME:$SCM_ACCESS_TOKEN@" ++ checkoutUrl ++ ";",
      "else",
      "    export SCM_URL=https://" ++ checkoutUrl ++ ";",
      "fi"]]

/-- The parent ("config") pipeline checkout fragments, present only for child
pipelines. -/
def parentFragments (pc : Option ParentConfig) : List String :=
  match pc with
  | none => []
  | some parentConfig =>
    let parentCheckoutUrl :=
      parentConfig.host ++ "/" ++ parentConfig.org ++ "/" ++ parentConfig.repo
    let parentSshCheckoutUrl :=
      "git@" ++ parentConfig.host ++ ":" ++ parentConfig.org ++ "/" ++ parentConfig.repo
    let parentBranch := parentConfig.branch
    let externalConfigDir := "$SD_ROOT_DIR/config"
    [trimIndentJoin [
       "if [ ! -z $SCM_CLONE_TYPE ] && [ $SCM_CLONE_TYPE = ssh ]; then",
       "    export CONFIG_URL=" ++ parentSshCheckoutUrl ++ ";",
       "elif [ ! -z $SCM_USERNAME ] && [ ! -z $SCM_ACCESS_TOKEN ]; then",
       "    export CONFIG_URL=https://$SCM_USERNAME:$SCM_ACCESS_TOKEN@" ++ parentCheckoutUrl ++ ";",
       "else",
       "    export CONFIG_URL=https://" ++ parentCheckoutUrl ++ ";",
       "fi"],
     "export SD_CONFIG_DIR=" ++ externalConfigDir,
     "echo Cloning external config repo " ++ parentCheckoutUrl,
     shallowCloneFragment (parentBranch ++ " $CONFIG_URL $SD_CONFIG_DIR"),
     sparseCheckoutFragment,
     "$SD_GIT_WRAPPER \"git -C $SD_CONFIG_DIR reset --hard " ++ parentConfig.sha ++ " --\"",
     "echo Reset external config repo to " ++ parentConfig.sha]

/-- The pull-request fetch-and-merge fragments; when no PR ref is supplied,
only the `GIT_BRANCH` export remains. -/
def prFragments (c : CheckoutConfig) (branch : String) : List String :=
  if jsTruthy c.prRef then
    let prRef := jsReplaceFirst (c.prRef.getD "") "merge" "head:pr"
    let baseRepo := if c.prSource = some "fork" then "upstream" else "origin"
    ["echo 'Fetching PR " ++ prRef ++ "'",
     "$SD_GIT_WRAPPER \"git fetch origin " ++ prRef ++ "\"",
     "export PR_BASE_BRANCH_NAME='" ++ branch ++ "'",
     "export PR_BRANCH_NAME='" ++ baseRepo ++ "/" ++ jsShowStr c.prBranchName ++ "'",
     "echo 'Checking out the PR branch " ++ jsShowStr c.prBranchName ++ "'",
     "$SD_GIT_WRAPPER \"git checkout pr\"",
     "$SD_GIT_WRAPPER \"git merge " ++ branch ++ "\"",
     "export GIT_BRANCH=origin/refs/" ++ prRef]
  else
    ["export GIT_BRANCH='origin/" ++ branch ++ "'"]

/-- The ordered fragment list assembled by `_getCheckoutCommand` up to and
including the submodule step (everything before the optional trailing
root-directory `cd`). -/
def preRootCommands (config : ScmConfig) (c : CheckoutConfig) : List String :=
  let checkoutUrl := c.host ++ "/" ++ c.org ++ "/" ++ c.repo
  let sshCheckoutUrl := "git@" ++ c.host ++ ":" ++ c.org ++ "/" ++ c.repo
  let branch := jsOr c.commitBranch c.branch
  let checkoutRef := if jsTruthy c.prRef then branch else c.sha
  ["export SD_GIT_WRAPPER=\"$(if [ `uname` = 'Darwin' ]; then echo 'eval'; else echo 'sd-step exec core/git'; fi)\"",
   trimIndentJoin [
     "if [ ! -z $GIT_RECURSIVE_CLONE ] && [ $GIT_RECURSIVE_CLONE = false ]; then",
     "    export GIT_RECURSIVE_OPTION=\"\";",
     "else",
     "    export GIT_RECURSIVE_OPTION=\"--recursive\";",
     "fi"],
   trimIndentJoin [
     "if [ ! -z \"$GIT_SPARSE_CHECKOUT_PATH\" ]; then",
     "    export GIT_SPARSE_OPTION=\"--no-checkout\";else",
     "    export GIT_SPARSE_OPTION=\"\";",
     "fi"],
   "echo Exporting environment variables"]
  ++ scmUrlFragments config checkoutUrl sshCheckoutUrl
  ++ ["export GIT_URL=$SCM_URL.git",
      "export GIT_MERGE_AUTOEDIT=no",
      "echo Setting user name and user email",
      "$SD_GIT_WRAPPER \"git config --global user.name " ++ config.username ++ "\"",
      "$SD_GIT_WRAPPER \"git config --global user.email " ++ config.email ++ "\"",
      "export SD_CHECKOUT_DIR_FINAL=$SD_SOURCE_DIR",
      trimIndentJoin [
        "if [ ! -z $SD_CHECKOUT_DIR ]; then",
        "    export SD_CHECKOUT_DIR_FINAL=$SD_CHECKOUT_DIR;",
        "fi"]]
  ++ parentFragments c.parentConfig
  ++ ["echo 'Cloning " ++ checkoutUrl ++ ", on branch " ++ branch ++ "'",
      shallowCloneFragment ("'" ++ branch ++ "' $SCM_URL $SD_CHECKOUT_DIR_FINAL"),
      sparseCheckoutFragment,
      "$SD_GIT_WRAPPER \"git reset --hard '" ++ checkoutRef ++ "' --\"",
      "echo 'Reset to " ++ checkoutRef ++ "'"]
  ++ prFragments c branch
  ++ [submoduleFragment]

/-- The full ordered fragment list assembled by `_getCheckoutCommand` before
`join(' && ')`: the main sequence followed by the optional `cd` into the
requested root directory. -/
def checkoutCommandList (config : ScmConfig) (c : CheckoutConfig) : List String :=
  preRootCommands config c
  ++ (if jsTruthy c.rootDir then ["cd " ++ c.rootDir.getD ""] else [])

/-- Shallow embedding of `_getCheckoutCommand(config)`. -/
def getCheckoutCommand (config : ScmConfig) (c : CheckoutConfig) : CheckoutResult :=
  { name := "sd-checkout-code"
    command := joinCommands (checkoutCommandList config c) }

/-! ### Example inputs shared by witnesses -/

/-- A representative adapter configuration. -/
def exampleScmConfig : ScmConfig :=
  { gitlabHost := none
    username := "sd-buildbot"
    email := "dev-null@screwdriver.cd"
    readOnly := none }

/-- Headers carrying the discriminating `x-gitlab-event` key. -/
def exampleGitlabHeaders : List (String × String) :=
  [("content-type", "application/json"), ("x-gitlab-event", "Tag Push Hook")]

/-- Headers without the discriminating key under any casing. -/
def exampleForeignHeaders : List (String × String) :=
  [("content-type", "application/json"), ("x-github-event", "pull_request")]

/-- A payload of an event kind the adapter does not support (`tag_push`),
which `parseHook` resolves to `null`. -/
def exampleTagPushPayload : WebhookPayload :=
  { object_kind := some "tag_push"
    project := none
    object_attributes := none
    user := none
    user_username := none
    ref := none
    checkout_sha := none
    commits := none }

/-! ### Claims about the webhook classifier -/

/-- C1: the claim requires `canHandleWebhook` to be true exactly when
`parseHook` succeeds *with a non-null event*, but `_canHandleWebhook` returns
`true` whenever `_parseHook` resolves, null included.  At a concrete
supported-header / unsupported-kind input, `parseHook` resolves `null` and
`canHandleWebhook` still returns `true`, contradicting the claim and the
repository's own test (`test/index.test.js`, "returns a false when parseHook
resolves null"). -/
theorem canHandleWebhook_true_on_null_parse :
    parseHook exampleScmConfig exampleGitlabHeaders exampleTagPushPayload = .ok none ∧
    canHandleWebhook exampleScmConfig exampleGitlabHeaders exampleTagPushPayload = true := by
  constructor <;> rfl

/-- Lower-casing of a header key, character by character (used to state
case-insensitive absence of the discriminating header). -/
def lowerKey (s : String) : String :=
  ⟨s.data.map Char.toLower⟩

/-- C2: whenever no header key is a letter-casing of `x-gitlab-event`,
`parseHook` fails with the `BadRequest` error carrying status code 400. -/
theorem parseHook_missing_header_badRequest (config : ScmConfig)
    (headers : List (String × String)) (payload : WebhookPayload)
    (h : ∀ k ∈ headerKeys headers, lowerKey k ≠ "x-gitlab-event") :
    parseHook config headers payload =
      .error (.scmError "Missing x-gitlab-event header" 400) := by
  have hmem : "x-gitlab-event" ∉ headerKeys headers := fun hx => h _ hx (by decide)
  simp [parseHook, hmem]

/-- Witness for C2 at concrete GitHub-style headers. -/
theorem parseHook_missing_header_badRequest_witness :
    parseHook exampleScmConfig exampleForeignHeaders exampleTagPushPayload =
      .error (.scmError "Missing x-gitlab-event header" 400) :=
  parseHook_missing_header_badRequest exampleScmConfig exampleForeignHeaders
    exampleTagPushPayload (by decide)

/-- C10: the discriminating-header check precedes event-kind dispatch: no
result (null or non-null) is ever produced unless the headers carry the
`x-gitlab-event` key, for every payload whatsoever. -/
theorem parseHook_ok_requires_header (config : ScmConfig)
    (headers : List (String × String)) (payload : WebhookPayload)
    (result : Option WebhookEvent)
    (h : parseHook config headers payload = .ok result) :
    "x-gitlab-event" ∈ headerKeys headers := by
  by_contra hmem
  simp [parseHook, hmem] at h

/-- Witness for C10 at a concrete input where `parseHook` produces `null`. -/
theorem parseHook_ok_requires_header_witness :
    "x-gitlab-event" ∈ headerKeys exampleGitlabHeaders :=
  parseHook_ok_requires_header exampleScmConfig exampleGitlabHeaders
    exampleTagPushPayload none rfl

/-- A merge-request payload in the non-actionable state `locked`. -/
def exampleLockedMrPayload : WebhookPayload :=
  { object_kind := some "merge_request"
    project := some { git_ssh_url := some "git@example.com:owner/repo.git" }
    object_attributes := some {
      state := some "locked"
      iid := some 6
      title := some "Update README.md"
      target_project_id := some 2
      source_project_id := some 2
      target_branch := some "main"
      last_commit := some { id := some "249e6a3010b971f339d1b291de1e9bb7f410721c" } }
    user := some { username := some "bdangit" }
    user_username := none
    ref := none
    checkout_sha := none
    commits := none }

/-- The `exampleLockedMrPayload` with a given merge-request state. -/
def mrPayloadWithState (s : String) : WebhookPayload :=
  { exampleLockedMrPayload with
      object_attributes := some {
        state := some s
        iid := some 6
        title := some "Update README.md"
        target_project_id := some 2
        source_project_id := some 2
        target_branch := some "main"
        last_commit := some { id := some "249e6a3010b971f339d1b291de1e9bb7f410721c" } } }

/-- C3: a merge-request payload whose nested state is none of `opened`,
`closed`, `merged` (absent included) yields `null`, not an event or error. -/
theorem parseHook_mr_inactionable_null (config : ScmConfig)
    (headers : List (String × String)) (payload : WebhookPayload)
    (hh : "x-gitlab-event" ∈ headerKeys headers)
    (hk : payload.object_kind = some "merge_request")
    (hs : ∀ a, payload.object_attributes.bind MergeRequestAttributes.state = some a →
          a ∉ (["opened", "closed", "merged"] : List String)) :
    parseHook config headers payload = .ok none := by
  cases haction : payload.object_attributes.bind MergeRequestAttributes.state with
  | none => simp [parseHook, hh, hk, haction]
  | some a =>
    have hna : a ∉ (["opened", "closed", "merged"] : List String) := hs a haction
    simp [parseHook, hh, hk, haction, hna]

/-- Witness for C3 at a concrete `locked` merge request. -/
theorem parseHook_mr_inactionable_null_witness :
    parseHook exampleScmConfig exampleGitlabHeaders exampleLockedMrPayload = .ok none :=
  parseHook_mr_inactionable_null exampleScmConfig exampleGitlabHeaders
    exampleLockedMrPayload (by decide) rfl (by decide)

/-- The normalized event built by the merge-request branch of `_parseHook`
when the nested state is the actionable string `a`. -/
def mrEvent (config : ScmConfig) (payload : WebhookPayload) (a : String) : WebhookEvent :=
  { action := if a = "merged" then "closed" else a
    branch := payload.object_attributes.bind MergeRequestAttributes.target_branch
    checkoutUrl := payload.project.bind GitlabProject.git_ssh_url
    sha := payload.object_attributes.bind fun mr => mr.last_commit.bind LastCommit.id
    type := "pr"
    username := payload.user.bind GitlabUser.username
    hookId := ""
    scmContext := (getScmContexts config).headD ""
    ref := "pull/" ++ jsShowNat (payload.object_attributes.bind MergeRequestAttributes.iid) ++ "/merge"
    prNum := payload.object_attributes.bind MergeRequestAttributes.iid
    prTitle := payload.object_attributes.bind MergeRequestAttributes.title
    prRef := some ("merge_requests/" ++ jsShowNat (payload.object_attributes.bind MergeRequestAttributes.iid))
    prSource := some (if payload.object_attributes.bind MergeRequestAttributes.target_project_id =
        payload.object_attributes.bind MergeRequestAttributes.source_project_id
      then "branch" else "fork")
    prMerged := some (decide (a = "merged"))
    commitAuthors := none
    lastCommitMessage := none
    addedFiles := none
    modifiedFiles := none
    removedFiles := none }

/-- Inversion helper: an actionable merge-request payload parses to exactly
`mrEvent`. -/
theorem parseHook_mr_ok (config : ScmConfig) (headers : List (String × String))
    (payload : WebhookPayload) (a : String)
    (hh : "x-gitlab-event" ∈ headerKeys headers)
    (hk : payload.object_kind = some "merge_request")
    (hs : payload.object_attributes.bind MergeRequestAttributes.state = some a)
    (ha : a ∈ (["opened", "closed", "merged"] : List String)) :
    parseHook config headers payload = .ok (some (mrEvent config payload a)) := by
  by_cases hma : a = "merged" <;>
    simp [parseHook, mrEvent, hh, hk, hs, ha, hma, jsShowStr]

/-- C4: a merge-request payload with state `merged` yields an event with
`action = "closed"` and `prMerged = true`; states `opened`/`closed` yield
`prMerged = false`. -/
theorem parseHook_mr_merged_fields (config : ScmConfig)
    (headers : List (String × String)) (payload : WebhookPayload)
    (hh : "x-gitlab-event" ∈ headerKeys headers)
    (hk : payload.object_kind = some "merge_request") :
    (payload.object_attributes.bind MergeRequestAttributes.state = some "merged" →
      ∃ ev, parseHook config headers payload = .ok (some ev) ∧
        ev.action = "closed" ∧ ev.prMerged = some true) ∧
    (∀ a, (a = "opened" ∨ a = "closed") →
      payload.object_attributes.bind MergeRequestAttributes.state = some a →
      ∃ ev, parseHook config headers payload = .ok (some ev) ∧
        ev.prMerged = some false) := by
  constructor
  · intro hs
    exact ⟨_, parseHook_mr_ok config headers payload "merged" hh hk hs (by decide), rfl, rfl⟩
  · intro a ha hs
    rcases ha with rfl | rfl
    · exact ⟨_, parseHook_mr_ok config headers payload "opened" hh hk hs (by decide), rfl⟩
    · exact ⟨_, parseHook_mr_ok config headers payload "closed" hh hk hs (by decide), rfl⟩

/-- Witness for C4 at concrete merged and opened merge requests. -/
theorem parseHook_mr_merged_fields_witness :
    (∃ ev, parseHook exampleScmConfig exampleGitlabHeaders (mrPayloadWithState "merged") =
        .ok (some ev) ∧ ev.action = "closed" ∧ ev.prMerged = some true) ∧
    (∃ ev, parseHook exampleScmConfig exampleGitlabHeaders (mrPayloadWithState "opened") =
        .ok (some ev) ∧ ev.prMerged = some false) :=
  ⟨(parseHook_mr_merged_fields exampleScmConfig exampleGitlabHeaders
      (mrPayloadWithState "merged") (by decide) rfl).1 rfl,
   (parseHook_mr_merged_fields exampleScmConfig exampleGitlabHeaders
      (mrPayloadWithState "opened") (by decide) rfl).2 "opened" (Or.inl rfl) rfl⟩

/-- An opened merge request originating from a fork (differing project ids). -/
def exampleForkMrPayload : WebhookPayload :=
  { exampleLockedMrPayload with
      object_attributes := some {
        state := some "opened"
        iid := some 6
        title := some "Update README.md"
        target_project_id := some 2
        source_project_id := some 3
        target_branch := some "main"
        last_commit := some { id := some "249e6a3010b971f339d1b291de1e9bb7f410721c" } } }

/-- C5: for every merge-request payload that yields a non-null event, the
event's `prSource` is `branch` when source and target project ids coincide
and `fork` when they differ. -/
theorem parseHook_mr_prSource (config : ScmConfig)
    (headers : List (String × String)) (payload : WebhookPayload)
    (ev : WebhookEvent)
    (hk : payload.object_kind = some "merge_request")
    (h : parseHook config headers payload = .ok (some ev)) :
    (payload.object_attributes.bind MergeRequestAttributes.source_project_id =
        payload.object_attributes.bind MergeRequestAttributes.target_project_id →
      ev.prSource = some "branch") ∧
    (payload.object_attributes.bind MergeRequestAttributes.source_project_id ≠
        payload.object_attributes.bind MergeRequestAttributes.target_project_id →
      ev.prSource = some "fork") := by
  by_cases hmem : "x-gitlab-event" ∈ headerKeys headers
  · simp [parseHook, hmem, hk] at h
    split at h
    · obtain ⟨rfl⟩ := h
      constructor
      · intro heq
        simp [heq]
      · intro hne
        have : ¬ (payload.object_attributes.bind MergeRequestAttributes.target_project_id =
            payload.object_attributes.bind MergeRequestAttributes.source_project_id) :=
          fun hx => hne hx.symm
        simp [this]
    · exact absurd h (by simp)
  · simp [parseHook, hmem] at h

/-- Witness for C5: a same-project merge request maps to `branch` and a
cross-project one to `fork`. -/
theorem parseHook_mr_prSource_witness :
    (mrEvent exampleScmConfig (mrPayloadWithState "opened") "opened").prSource = some "branch" ∧
    (mrEvent exampleScmConfig exampleForkMrPayload "opened").prSource = some "fork" :=
  ⟨(parseHook_mr_prSource exampleScmConfig exampleGitlabHeaders (mrPayloadWithState "opened")
      (mrEvent exampleScmConfig (mrPayloadWithState "opened") "opened") rfl
      (parseHook_mr_ok exampleScmConfig exampleGitlabHeaders (mrPayloadWithState "opened")
        "opened" (by decide) rfl rfl (by decide))).1 rfl,
   (parseHook_mr_prSource exampleScmConfig exampleGitlabHeaders exampleForkMrPayload
      (mrEvent exampleScmConfig exampleForkMrPayload "opened") rfl
      (parseHook_mr_ok exampleScmConfig exampleGitlabHeaders exampleForkMrPayload
        "opened" (by decide) rfl rfl (by decide))).2 (by decide)⟩

/-- The normalized event built by the push branch of `_parseHook` when the
payload's `ref` is the string `r`. -/
def pushEvent (config : ScmConfig) (payload : WebhookPayload) (r : String) : WebhookEvent :=
  { action := "push"
    branch := some ((r.splitOn "/").getLastD "")
    checkoutUrl := payload.project.bind GitlabProject.git_ssh_url
    sha := payload.checkout_sha
    type := "repo"
    username := payload.user_username
    hookId := ""
    scmContext := (getScmContexts config).headD ""
    ref := r
    prNum := none
    prTitle := none
    prRef := none
    prSource := none
    prMerged := none
    commitAuthors := some (commitAuthorsOf payload.commits)
    lastCommitMessage := some (lastCommitMessageOf payload.commits)
    addedFiles := some (firstCommitFiles payload.commits PushCommit.added)
    modifiedFiles := some (firstCommitFiles payload.commits PushCommit.modified)
    removedFiles := some (firstCommitFiles payload.commits PushCommit.removed) }

/-- Inversion helper: a push payload carrying a `ref` parses to exactly
`pushEvent`. -/
theorem parseHook_push_ok (config : ScmConfig) (headers : List (String × String))
    (payload : WebhookPayload) (r : String)
    (hh : "x-gitlab-event" ∈ headerKeys headers)
    (hk : payload.object_kind = some "push")
    (hr : payload.ref = some r) :
    parseHook config headers payload = .ok (some (pushEvent config payload r)) := by
  simp [parseHook, pushEvent, hh, hk, hr]

/-- C6: a push payload with an empty commit list parses without error to an
event with `commitAuthors = []` and `lastCommitMessage = ""`. -/
theorem parseHook_push_empty_commits (config : ScmConfig)
    (headers : List (String × String)) (payload : WebhookPayload) (r : String)
    (hh : "x-gitlab-event" ∈ headerKeys headers)
    (hk : payload.object_kind = some "push")
    (hr : payload.ref = some r)
    (hc : payload.commits = some []) :
    ∃ ev, parseHook config headers payload = .ok (some ev) ∧
      ev.commitAuthors = some [] ∧ ev.lastCommitMessage = some "" := by
  refine ⟨pushEvent config payload r, parseHook_push_ok config headers payload r hh hk hr, ?_, ?_⟩
  · simp [pushEvent, hc, commitAuthorsOf]
  · simp [pushEvent, hc, lastCommitMessageOf]

/-- A push payload with an empty commit list (e.g. a branch deletion). -/
def exampleEmptyPushPayload : WebhookPayload :=
  { object_kind := some "push"
    project := some { git_ssh_url := some "git@example.com:owner/repo.git" }
    object_attributes := none
    user := none
    user_username := some "jsmith"
    ref := some "refs/heads/main"
    checkout_sha := some "da1560886d4f094c3e6c9ef40349f7d38b5d27d7"
    commits := some [] }

/-- Witness for C6 at a concrete empty push. -/
theorem parseHook_push_empty_commits_witness :
    ∃ ev, parseHook exampleScmConfig exampleGitlabHeaders exampleEmptyPushPayload =
        .ok (some ev) ∧ ev.commitAuthors = some [] ∧ ev.lastCommitMessage = some "" :=
  parseHook_push_empty_commits exampleScmConfig exampleGitlabHeaders exampleEmptyPushPayload
    "refs/heads/main" (by decide) rfl rfl rfl

/-! ### Claims about the checkout-command synthesizer -/

/-- A representative checkout plan: fork PR with a root directory. -/
def exampleCheckoutConfig : CheckoutConfig :=
  { branch := "main"
    commitBranch := none
    host := "gitlab.com"
    org := "screwdriver-cd"
    repo := "guide"
    sha := "da1560886d4f094c3e6c9ef40349f7d38b5d27d7"
    rootDir := some "src/app/component"
    prRef := some "merge_requests/6/merge"
    prSource := some "fork"
    prBranchName := some "patch-1"
    parentConfig := none }

/-- C7: checkout-command synthesis is a pure function of its input: two calls
with identical checkout plans produce the identical name and the identical
command string. -/
theorem getCheckoutCommand_deterministic (config : ScmConfig)
    (c1 c2 : CheckoutConfig) (h : c1 = c2) :
    (getCheckoutCommand config c1).name = (getCheckoutCommand config c2).name ∧
    (getCheckoutCommand config c1).command = (getCheckoutCommand config c2).command := by
  rw [h]
  exact ⟨rfl, rfl⟩

/-- Witness for C7 at a concrete checkout plan. -/
theorem getCheckoutCommand_deterministic_witness :
    (getCheckoutCommand exampleScmConfig exampleCheckoutConfig).name =
      (getCheckoutCommand exampleScmConfig exampleCheckoutConfig).name ∧
    (getCheckoutCommand exampleScmConfig exampleCheckoutConfig).command =
      (getCheckoutCommand exampleScmConfig exampleCheckoutConfig).command :=
  getCheckoutCommand_deterministic exampleScmConfig exampleCheckoutConfig
    exampleCheckoutConfig rfl

/-- `join(' && ')` of a list extended by a final command appends the command
after one more separator. -/
theorem joinCommands_append_singleton (l : List String) (x : String) (h : l ≠ []) :
    joinCommands (l ++ [x]) = joinCommands l ++ " && " ++ x := by
  induction l with
  | nil => exact absurd rfl h
  | cons a t ih =>
    cases t with
    | nil => rfl
    | cons b t2 =>
      show a ++ " && " ++ joinCommands ((b :: t2) ++ [x]) = _
      rw [ih (by simp)]
      simp [joinCommands, String.append_assoc]

/-- The main fragment sequence is never empty. -/
theorem preRootCommands_ne_nil (config : ScmConfig) (c : CheckoutConfig) :
    preRootCommands config c ≠ [] := by
  simp [preRootCommands]

/-- The main fragment sequence always ends with the submodule step. -/
theorem preRootCommands_getLast (config : ScmConfig) (c : CheckoutConfig) :
    (preRootCommands config c).getLast? = some submoduleFragment := by
  have h : ∀ l : List String, (l ++ [submoduleFragment]).getLast? = some submoduleFragment := by
    simp
  exact h _

/-- C8: with a truthy `rootDir` the synthesized command ends with `cd` into
that directory as the final `&&`-joined step, after every other fragment;
without one, the final fragment is the submodule step, which is not a `cd`. -/
theorem getCheckoutCommand_rootDir (config : ScmConfig) (c : CheckoutConfig) :
    (∀ d, c.rootDir = some d → d ≠ "" →
      (checkoutCommandList config c).getLast? = some ("cd " ++ d) ∧
      ∃ pre, (getCheckoutCommand config c).command = pre ++ " && " ++ ("cd " ++ d)) ∧
    (c.rootDir = none →
      (checkoutCommandList config c).getLast? = some submoduleFragment ∧
      ∀ d, submoduleFragment ≠ "cd " ++ d) := by
  constructor
  · intro d hd hne
    have htr : jsTruthy c.rootDir = true := by simp [jsTruthy, hd, hne]
    have hlist : checkoutCommandList config c =
        preRootCommands config c ++ ["cd " ++ d] := by
      simp [checkoutCommandList, jsTruthy, hd, hne]
    constructor
    · rw [hlist]
      simp
    · refine ⟨joinCommands (preRootCommands config c), ?_⟩
      show joinCommands (checkoutCommandList config c) = _
      rw [hlist, joinCommands_append_singleton _ _ (preRootCommands_ne_nil config c)]
  · intro hd
    have htr : jsTruthy c.rootDir = false := by simp [jsTruthy, hd]
    constructor
    · simp [checkoutCommandList, htr, preRootCommands_getLast]
    · intro d hcontra
      have h3 : submoduleFragment.data.take 3 = ("cd " ++ d).data.take 3 :=
        congrArg (fun s => s.data.take 3) hcontra
      rw [String.data_append,
        show ((3 : Nat)) = ("cd ".data).length from rfl, List.take_left] at h3
      exact absurd h3 (by decide)

/-- Witness for C8 at a concrete plan carrying a root directory. -/
theorem getCheckoutCommand_rootDir_witness :
    (checkoutCommandList exampleScmConfig exampleCheckoutConfig).getLast? =
      some ("cd " ++ "src/app/component") ∧
    ∃ pre, (getCheckoutCommand exampleScmConfig exampleCheckoutConfig).command =
      pre ++ " && " ++ ("cd " ++ "src/app/component") :=
  (getCheckoutCommand_rootDir exampleScmConfig exampleCheckoutConfig).1
    "src/app/component" rfl (by decide)

/-- Every PR fragment appears in the full fragment list. -/
theorem prFragments_mem_checkoutCommandList (config : ScmConfig) (c : CheckoutConfig)
    (x : String) (hx : x ∈ prFragments c (jsOr c.commitBranch c.branch)) :
    x ∈ checkoutCommandList config c := by
  simp only [checkoutCommandList, preRootCommands, List.mem_append]
  tauto

/-- C9: with a truthy PR ref locator, the exported `PR_BRANCH_NAME` marker is
prefixed `upstream/` for a fork-sourced PR and `origin/` for a branch-sourced
(or unspecified-source) PR. -/
theorem getCheckoutCommand_prBranchName_marker (config : ScmConfig) (c : CheckoutConfig)
    (r : String) (hr : c.prRef = some r) (hrne : r ≠ "") :
    (c.prSource = some "fork" →
      ("export PR_BRANCH_NAME='upstream/" ++ jsShowStr c.prBranchName ++ "'")
        ∈ checkoutCommandList config c) ∧
    ((c.prSource = some "branch" ∨ c.prSource = none) →
      ("export PR_BRANCH_NAME='origin/" ++ jsShowStr c.prBranchName ++ "'")
        ∈ checkoutCommandList config c) := by
  have htr : jsTruthy c.prRef = true := by simp [jsTruthy, hr, hrne]
  constructor
  · intro hps
    apply prFragments_mem_checkoutCommandList
    simp [prFragments, htr, hps]
  · intro hps
    have hnf : ¬ c.prSource = some "fork" := by
      rcases hps with h | h <;> simp [h]
    apply prFragments_mem_checkoutCommandList
    simp [prFragments, htr, hnf]

/-- Witness for C9 at a concrete fork-sourced plan. -/
theorem getCheckoutCommand_prBranchName_marker_witness :
    ("export PR_BRANCH_NAME='upstream/" ++
        jsShowStr exampleCheckoutConfig.prBranchName ++ "'")
      ∈ checkoutCommandList exampleScmConfig exampleCheckoutConfig :=
  (getCheckoutCommand_prBranchName_marker exampleScmConfig exampleCheckoutConfig
    "merge_requests/6/merge" rfl (by decide)).1 rfl
